import Mathlib

/-!
Shallow embedding of `src/repair/utility/FileHandle.cpp` (namespace WCDB).

The file implements a positioned-I/O file handle over an OS descriptor:
`open`, `close`, `isOpened`, `size`, `read`, `write`, `setThreadedError`,
plus move construction/assignment.

Modelling conventions:
* The OS is an oracle: each underlying `pread`/`pwrite` attempt is drawn
  from a schedule (`List PResult`), and each `::open` call's result is an
  `OpenRes` (descriptor plus `errno`).  The loops are literal transcripts
  of the C control flow (the `do { ... } while` bodies), structurally
  recursive on the schedule, returning `none` iff the schedule runs out.
* `WCTInnerAssert` is a debug-build assertion compiled out in release; it
  is modelled as a no-op (its condition shows up as a theorem hypothesis
  where relevant).  `WCTRemedialAssert(cond, msg, action)` executes
  `action` when `cond` is false; it is transcribed directly.
* Machine integers (`ssize_t`, `off_t`) are modelled as `Int`/`Nat`: the
  values involved (byte counts, descriptors) never approach overflow.
* `errno`/`strerror`: `errno` of a failing call travels with the oracle
  response; `strerror` is an arbitrary function parameter `Nat → String`.
* Syscall visibility: `open` records the `::open` invocations it issues
  (path, flags, permission bits) and `close` records the descriptors it
  passes to `::close`, so "how many OS calls happened" is provable.
-/

namespace WCDB

/-- Access mode of a `FileHandle` (from FileHandle.hpp): `None`, `ReadOnly`
or `OverWrite`. -/
inductive Mode where
  | none
  | readOnly
  | overWrite
deriving DecidableEq, Repr

/-- Structured error value as built by `FileHandle::setThreadedError`:
system code (the `errno`), the kind tag (`Error::Code::IOError`), the
`strerror` message, and the `"Path"` entry of the context map. -/
structure Error where
  systemCode : Nat
  isIOError : Bool
  message : String
  pathInfo : String
deriving DecidableEq, Repr

/-- State of the two error sinks: the `Notifier::shared()` broadcast point
(list of all notified errors, in order) and the calling thread's
`SharedThreadedErrorProne` slot. -/
structure ThreadState where
  published : List Error
  slot : Option Error
deriving DecidableEq, Repr

/-- `errno` value for an interrupted system call. -/
def EINTR : Nat := 4

/-- The `Error` value constructed inside `FileHandle::setThreadedError`:
`setSystemCode(errno, Error::Code::IOError)`, `message = strerror(errno)`,
`infos.set("Path", path)`. -/
def mkError (strerror : Nat → String) (path : String) (errno : Nat) : Error :=
  { systemCode := errno
    isIOError := true
    message := strerror errno
    pathInfo := path }

/-- `FileHandle::setThreadedError` (FileHandle.cpp:158-166): builds the
error from `errno`, notifies it through the shared `Notifier`, and stores
it into the calling thread's error slot. -/
def setThreadedError (strerror : Nat → String) (path : String) (errno : Nat)
    (ts : ThreadState) : ThreadState :=
  let error := mkError strerror path errno
  { published := ts.published ++ [error]
    slot := some error }

/-- The member state of a `FileHandle`: immutable `path`, descriptor
`m_fd` (`-1` is the invalid sentinel), and `m_mode`. -/
structure FileHandle where
  path : String
  m_fd : Int
  m_mode : Mode
deriving DecidableEq, Repr

/-- `FileHandle::FileHandle(const std::string&)` (FileHandle.cpp:31-34). -/
def FileHandle.init (path : String) : FileHandle :=
  { path := path, m_fd := -1, m_mode := Mode.none }

/-- `FileHandle::isOpened` (FileHandle.cpp:83-86). -/
def FileHandle.isOpened (h : FileHandle) : Bool :=
  h.m_fd != -1

/-- `FileHandle::FileHandle(FileHandle&&)` (FileHandle.cpp:36-43): the
constructed handle takes `path`, `m_fd` and `m_mode`; the source is reset
to `m_fd = -1`, `m_mode = Mode::None`.  Returns (constructed, source). -/
def FileHandle.moveConstruct (other : FileHandle) : FileHandle × FileHandle :=
  ({ path := other.path, m_fd := other.m_fd, m_mode := other.m_mode },
   { other with m_fd := -1, m_mode := Mode.none })

/-- `FileHandle::operator=(FileHandle&&)` (FileHandle.cpp:51-57): after
`WCTInnerAssert(path == other.path)`, only `m_fd` is transferred and only
the source's `m_fd` is reset; neither `m_mode` is touched.
Returns (assigned-to, source). -/
def FileHandle.moveAssign (self other : FileHandle) : FileHandle × FileHandle :=
  ({ self with m_fd := other.m_fd },
   { other with m_fd := -1 })

/-- Linux `O_RDONLY`. -/
def O_RDONLY : Nat := 0
/-- Linux `O_WRONLY`. -/
def O_WRONLY : Nat := 1
/-- Linux `O_CREAT` (0o100). -/
def O_CREAT : Nat := 64
/-- Linux `O_TRUNC` (0o1000). -/
def O_TRUNC : Nat := 512
/-- `S_IRWXU` (0o700). -/
def S_IRWXU : Nat := 448
/-- `S_IRGRP` (0o40). -/
def S_IRGRP : Nat := 32
/-- `S_IROTH` (0o4). -/
def S_IROTH : Nat := 4

/-- One `::open` system call as issued by `FileHandle::open`: the path,
the flag word, and the permission bits when a third argument is passed.
The flag constants are disjoint bit masks, so `|` is addition here. -/
structure OpenCall where
  path : String
  flags : Nat
  perm : Option Nat
deriving DecidableEq, Repr

/-- OS response to one `::open` call: the returned descriptor (`-1` on
failure) and the `errno` in effect after the call. -/
structure OpenRes where
  fd : Int
  errno : Nat
deriving DecidableEq, Repr

/-- Result of `FileHandle::open`: the boolean return, the handle state
after the call, the `::open` system calls issued (in order), and the
error-sink state. -/
structure OpenOutcome where
  ret : Bool
  handle : FileHandle
  calls : List OpenCall
  ts : ThreadState
deriving DecidableEq, Repr

/-- Tail of `FileHandle::open` after the `switch` (FileHandle.cpp:75-80):
`m_fd = ::open(path.c_str(), flag);` with `flag == 0`, then the failure
check `if (m_fd == -1) { setThreadedError(); return false; }`. -/
def FileHandle.openTail (strerror : Nat → String) (r2 : OpenRes)
    (h : FileHandle) (calls : List OpenCall) (ts : ThreadState) : OpenOutcome :=
  let c2 : OpenCall := { path := h.path, flags := 0, perm := none }
  let h2 := { h with m_fd := r2.fd }
  if r2.fd = -1 then
    { ret := false, handle := h2, calls := calls ++ [c2]
      ts := setThreadedError strerror h.path r2.errno ts }
  else
    { ret := true, handle := h2, calls := calls ++ [c2], ts := ts }

/-- `FileHandle::open` (FileHandle.cpp:59-81).  `WCTInnerAssert(mode !=
Mode::None)` is a release no-op; `WCTRemedialAssert(!isOpened(), ...,
return true)` returns `true` when the handle is already open.  Otherwise
the `switch` issues the mode-specific `::open` storing its result in
`m_fd`, after which `m_fd = ::open(path.c_str(), flag)` runs with the
untouched `flag = 0`.  `r1`/`r2` are the OS responses to the first and
second `::open`. -/
def FileHandle.open (strerror : Nat → String) (r1 r2 : OpenRes)
    (h : FileHandle) (mode : Mode) (ts : ThreadState) : OpenOutcome :=
  if h.isOpened then
    { ret := true, handle := h, calls := [], ts := ts }
  else
    match mode with
    | Mode.overWrite =>
        FileHandle.openTail strerror r2 { h with m_fd := r1.fd }
          [{ path := h.path, flags := O_CREAT + O_WRONLY + O_TRUNC
             perm := some (S_IRWXU + S_IRGRP + S_IROTH) }] ts
    | Mode.readOnly =>
        FileHandle.openTail strerror r2 { h with m_fd := r1.fd }
          [{ path := h.path, flags := O_RDONLY, perm := none }] ts
    | Mode.none =>
        { ret := false, handle := h, calls := [], ts := ts }

/-- `FileHandle::close` (FileHandle.cpp:88-95): `WCTInnerAssert(isOpened())`
is a release no-op; the body releases the descriptor only when `m_fd != -1`.
Returns the new handle state and the descriptors passed to `::close`. -/
def FileHandle.close (h : FileHandle) : FileHandle × List Int :=
  if h.m_fd != -1 then ({ h with m_fd := -1 }, [h.m_fd])
  else (h, [])

/-- An OS file as seen through one descriptor: its byte content and the
shared file-position cursor associated with the descriptor. -/
structure OSFile where
  content : List Nat
  cursor : Nat
deriving DecidableEq, Repr

/-- `lseek(fd, 0, SEEK_END)`: repositions the shared cursor to the end of
the file and returns the resulting offset, i.e. the file length. -/
def lseekEnd (file : OSFile) : Int × OSFile :=
  ((file.content.length : Int), { file with cursor := file.content.length })

/-- `FileHandle::size` (FileHandle.cpp:97-101): `return (ssize_t)
lseek(m_fd, 0, SEEK_END);`.  Returns the value and the file state (with
its cursor) after the call. -/
def FileHandle.size (file : OSFile) : Int × OSFile :=
  lseekEnd file

/-- OS response to one `pread`/`pwrite` attempt: `ok n` is a return of
`n ≥ 0` bytes transferred; `err e` is a return of `-1` with `errno = e`. -/
inductive PResult where
  | ok (n : Nat)
  | err (errno : Nat)
deriving DecidableEq, Repr

/-- Bytes `l[offset .. offset+n)`. -/
def chunk (l : List Nat) (offset n : Nat) : List Nat :=
  (l.drop offset).take n

/-- Result of a `read`/`write` call: the `ssize_t` return value, the bytes
transferred in order (for `read`: deposited into the caller's buffer from
its start; for `write`: written to the file contiguously from the starting
offset), and the error-sink state. -/
structure IOOutcome where
  ret : Int
  data : List Nat
  ts : ThreadState
deriving DecidableEq, Repr

/-- The `do { ... } while (got > 0)` loop of `FileHandle::read`
(FileHandle.cpp:106-128), transcribed over the attempt schedule.  `f` is
the file content; `offset`, `size`, `prior` and the buffer position
(tracked by `acc`) evolve exactly as in the C body.  On `got == size` the
loop breaks returning `got + prior`; on `got == 0` it falls out of the
loop returning `0 + prior`; on `EINTR` it sets the sentinel `got = 1` and
continues (the sentinel is dead: it is overwritten by the next attempt);
on any other error it sets `prior = 0`, calls `setThreadedError` and
breaks, returning `got + prior = -1`. -/
def readLoop (strerror : Nat → String) (path : String) (f : List Nat) :
    List PResult → Nat → Nat → Nat → List Nat → ThreadState → Option IOOutcome
  | [], _, _, _, _, _ => none
  | PResult.ok got :: rest, offset, size, prior, acc, ts =>
      if got = size then
        some { ret := (got : Int) + (prior : Int)
               data := acc ++ chunk f offset got, ts := ts }
      else if got = 0 then
        some { ret := (prior : Int), data := acc, ts := ts }
      else
        readLoop strerror path f rest (offset + got) (size - got) (prior + got)
          (acc ++ chunk f offset got) ts
  | PResult.err e :: rest, offset, size, prior, acc, ts =>
      if e = EINTR then
        readLoop strerror path f rest offset size prior acc ts
      else
        some { ret := (-1 : Int), data := acc
               ts := setThreadedError strerror path e ts }

/-- `FileHandle::read` (FileHandle.cpp:103-129): enters the loop with
`prior = 0` and the buffer at its start. -/
def FileHandle.read (strerror : Nat → String) (f : List Nat)
    (sched : List PResult) (h : FileHandle) (offset size : Nat)
    (ts : ThreadState) : Option IOOutcome :=
  readLoop strerror h.path f sched offset size 0 [] ts

/-- The `do { ... } while (wrote > 0)` loop of `FileHandle::write`
(FileHandle.cpp:134-155); `b` is the caller's buffer, and the chunk
written by an attempt that transfers `n` bytes is `b[prior .. prior+n)`
(the pointer advances with `prior`).  Identical control flow to the read
loop except that the non-interruption error branch does not zero `prior`,
so the break returns `wrote + prior = prior - 1`. -/
def writeLoop (strerror : Nat → String) (path : String) (b : List Nat) :
    List PResult → Nat → Nat → Nat → List Nat → ThreadState → Option IOOutcome
  | [], _, _, _, _, _ => none
  | PResult.ok wrote :: rest, offset, size, prior, acc, ts =>
      if wrote = size then
        some { ret := (wrote : Int) + (prior : Int)
               data := acc ++ chunk b prior wrote, ts := ts }
      else if wrote = 0 then
        some { ret := (prior : Int), data := acc, ts := ts }
      else
        writeLoop strerror path b rest (offset + wrote) (size - wrote)
          (prior + wrote) (acc ++ chunk b prior wrote) ts
  | PResult.err e :: rest, offset, size, prior, acc, ts =>
      if e = EINTR then
        writeLoop strerror path b rest offset size prior acc ts
      else
        some { ret := (-1 : Int) + (prior : Int), data := acc
               ts := setThreadedError strerror path e ts }

/-- `FileHandle::write` (FileHandle.cpp:131-156): enters the loop with
`prior = 0` and the buffer at its start. -/
def FileHandle.write (strerror : Nat → String) (b : List Nat)
    (sched : List PResult) (h : FileHandle) (offset size : Nat)
    (ts : ThreadState) : Option IOOutcome :=
  writeLoop strerror h.path b sched offset size 0 [] ts

end WCDB

namespace WCDB

/-! ## General lemmas about the read/write loops -/

theorem chunk_append (l : List Nat) (offset m n : Nat) :
    chunk l offset m ++ chunk l (offset + m) n = chunk l offset (m + n) := by
  unfold chunk
  rw [List.take_add, List.drop_drop]

theorem readLoop_skip_eintr (strerror : Nat → String) (path : String)
    (f : List Nat) (A B : List PResult) :
    ∀ offset size prior acc ts,
      readLoop strerror path f (A ++ PResult.err EINTR :: B) offset size prior acc ts =
        readLoop strerror path f (A ++ B) offset size prior acc ts := by
  induction A with
  | nil =>
      intro offset size prior acc ts
      simp [readLoop]
  | cons a A ih =>
      intro offset size prior acc ts
      cases a with
      | ok n =>
          simp only [List.cons_append, readLoop]
          split
          · rfl
          · split
            · rfl
            · exact ih _ _ _ _ _
      | err e =>
          simp only [List.cons_append, readLoop]
          split
          · exact ih _ _ _ _ _
          · rfl

theorem sum_pos_of_all_pos (ks : List Nat) (hne : ks ≠ [])
    (hpos : ∀ k ∈ ks, 0 < k) : 0 < ks.sum := by
  cases ks with
  | nil => exact absurd rfl hne
  | cons k ks =>
      have hk : 0 < k := hpos k (List.mem_cons_self _ _)
      simp only [List.sum_cons]
      omega

theorem readLoop_ok_complete (strerror : Nat → String) (path : String)
    (f : List Nat) (ks : List Nat) :
    ∀ offset prior acc ts rest,
      ks ≠ [] → (∀ k ∈ ks, 0 < k) →
      readLoop strerror path f (ks.map PResult.ok ++ rest) offset ks.sum prior acc ts =
        some { ret := (ks.sum : Int) + (prior : Int)
               data := acc ++ chunk f offset ks.sum, ts := ts } := by
  induction ks with
  | nil => intro _ _ _ _ _ hne _; exact absurd rfl hne
  | cons k ks ih =>
      intro offset prior acc ts rest _ hpos
      by_cases hks : ks = []
      · subst hks
        simp [readLoop]
      · have hk : 0 < k := hpos k (List.mem_cons_self _ _)
        have hsum : 0 < ks.sum :=
          sum_pos_of_all_pos ks hks (fun x hx => hpos x (List.mem_cons_of_mem _ hx))
        simp only [List.map_cons, List.cons_append, List.sum_cons, readLoop,
          List.append_eq]
        rw [if_neg (by omega), if_neg (by omega)]
        rw [show k + ks.sum - k = ks.sum from by omega]
        rw [ih (offset + k) (prior + k) (acc ++ chunk f offset k) ts rest hks
          (fun x hx => hpos x (List.mem_cons_of_mem _ hx))]
        rw [List.append_assoc, chunk_append]
        congr 2
        push_cast
        ring

theorem readLoop_ok_progress (strerror : Nat → String) (path : String)
    (f : List Nat) (ks : List Nat) :
    ∀ sched offset size prior acc ts,
      (∀ k ∈ ks, 0 < k) → ks.sum < size →
      readLoop strerror path f (ks.map PResult.ok ++ sched) offset size prior acc ts =
        readLoop strerror path f sched (offset + ks.sum) (size - ks.sum)
          (prior + ks.sum) (acc ++ chunk f offset ks.sum) ts := by
  induction ks with
  | nil =>
      intro sched offset size prior acc ts _ _
      simp [chunk]
  | cons k ks ih =>
      intro sched offset size prior acc ts hpos hlt
      have hk : 0 < k := hpos k (List.mem_cons_self _ _)
      have hlt' : k + ks.sum < size := by simpa using hlt
      simp only [List.map_cons, List.cons_append, List.sum_cons, readLoop,
        List.append_eq]
      rw [if_neg (by omega), if_neg (by omega)]
      rw [ih sched (offset + k) (size - k) (prior + k) (acc ++ chunk f offset k) ts
        (fun x hx => hpos x (List.mem_cons_of_mem _ hx)) (by omega)]
      rw [List.append_assoc, chunk_append]
      congr 1 <;> omega

theorem writeLoop_skip_eintr (strerror : Nat → String) (path : String)
    (b : List Nat) (A B : List PResult) :
    ∀ offset size prior acc ts,
      writeLoop strerror path b (A ++ PResult.err EINTR :: B) offset size prior acc ts =
        writeLoop strerror path b (A ++ B) offset size prior acc ts := by
  induction A with
  | nil =>
      intro offset size prior acc ts
      simp [writeLoop]
  | cons a A ih =>
      intro offset size prior acc ts
      cases a with
      | ok n =>
          simp only [List.cons_append, writeLoop]
          split
          · rfl
          · split
            · rfl
            · exact ih _ _ _ _ _
      | err e =>
          simp only [List.cons_append, writeLoop]
          split
          · exact ih _ _ _ _ _
          · rfl

theorem writeLoop_ok_complete (strerror : Nat → String) (path : String)
    (b : List Nat) (ks : List Nat) :
    ∀ offset prior acc ts rest,
      ks ≠ [] → (∀ k ∈ ks, 0 < k) →
      writeLoop strerror path b (ks.map PResult.ok ++ rest) offset ks.sum prior acc ts =
        some { ret := (ks.sum : Int) + (prior : Int)
               data := acc ++ chunk b prior ks.sum, ts := ts } := by
  induction ks with
  | nil => intro _ _ _ _ _ hne _; exact absurd rfl hne
  | cons k ks ih =>
      intro offset prior acc ts rest _ hpos
      by_cases hks : ks = []
      · subst hks
        simp [writeLoop]
      · have hk : 0 < k := hpos k (List.mem_cons_self _ _)
        have hsum : 0 < ks.sum :=
          sum_pos_of_all_pos ks hks (fun x hx => hpos x (List.mem_cons_of_mem _ hx))
        simp only [List.map_cons, List.cons_append, List.sum_cons, writeLoop,
          List.append_eq]
        rw [if_neg (by omega), if_neg (by omega)]
        rw [show k + ks.sum - k = ks.sum from by omega]
        rw [ih (offset + k) (prior + k) (acc ++ chunk b prior k) ts rest hks
          (fun x hx => hpos x (List.mem_cons_of_mem _ hx))]
        rw [List.append_assoc, chunk_append]
        congr 2
        push_cast
        ring

theorem writeLoop_ok_progress (strerror : Nat → String) (path : String)
    (b : List Nat) (ks : List Nat) :
    ∀ sched offset size prior acc ts,
      (∀ k ∈ ks, 0 < k) → ks.sum < size →
      writeLoop strerror path b (ks.map PResult.ok ++ sched) offset size prior acc ts =
        writeLoop strerror path b sched (offset + ks.sum) (size - ks.sum)
          (prior + ks.sum) (acc ++ chunk b prior ks.sum) ts := by
  induction ks with
  | nil =>
      intro sched offset size prior acc ts _ _
      simp [chunk]
  | cons k ks ih =>
      intro sched offset size prior acc ts hpos hlt
      have hk : 0 < k := hpos k (List.mem_cons_self _ _)
      have hlt' : k + ks.sum < size := by simpa using hlt
      simp only [List.map_cons, List.cons_append, List.sum_cons, writeLoop,
        List.append_eq]
      rw [if_neg (by omega), if_neg (by omega)]
      rw [ih sched (offset + k) (size - k) (prior + k) (acc ++ chunk b prior k) ts
        (fun x hx => hpos x (List.mem_cons_of_mem _ hx)) (by omega)]
      rw [List.append_assoc, chunk_append]
      congr 1 <;> omega

end WCDB

namespace WCDB

/-! ## Claim theorems -/

/-- Claim C1: the claim states `open(mode)` issues exactly one
descriptor-acquiring system call with mode-derived flags and never a
second call with default/empty flags.  The code violates this: at the
failing input (closed handle on path `"p"`, `open(OverWrite)`, OS
granting descriptors 3 then 4), the call issues two `::open` system
calls — the mode-specific one and then `::open(path, 0)` — keeps only
the second descriptor, and leaks the first. -/
theorem open_double_syscall_bug :
    (FileHandle.open (fun _ => "") ⟨3, 0⟩ ⟨4, 0⟩ (FileHandle.init "p")
        Mode.overWrite ⟨[], none⟩).calls =
      [{ path := "p", flags := O_CREAT + O_WRONLY + O_TRUNC
         perm := some (S_IRWXU + S_IRGRP + S_IROTH) },
       { path := "p", flags := 0, perm := none }] ∧
    (FileHandle.open (fun _ => "") ⟨3, 0⟩ ⟨4, 0⟩ (FileHandle.init "p")
        Mode.overWrite ⟨[], none⟩).calls.length ≠ 1 ∧
    (FileHandle.open (fun _ => "") ⟨3, 0⟩ ⟨4, 0⟩ (FileHandle.init "p")
        Mode.overWrite ⟨[], none⟩).handle.m_fd = 4 ∧
    (FileHandle.open (fun _ => "") ⟨3, 0⟩ ⟨4, 0⟩ (FileHandle.init "p")
        Mode.overWrite ⟨[], none⟩).ret = true :=
  ⟨rfl, by decide, rfl, rfl⟩

/-- Claim C2: the claim states that on a non-interruption read error the
call returns the bytes transferred before the failing attempt and never a
negative value.  The code violates this: with the first `pread`
transferring 5 of 10 requested bytes and the second failing with
`errno = 5` (EIO), `read` zeroes the accumulated `prior` and returns
`got + prior = -1`, not 5 (it does capture and publish exactly one
Error). -/
theorem read_error_return_bug :
    readLoop (fun _ => "") "p" [10, 11, 12, 13, 14, 15, 16, 17, 18, 19]
        [PResult.ok 5, PResult.err 5] 0 10 0 [] ⟨[], none⟩ =
      some { ret := -1, data := [10, 11, 12, 13, 14]
             ts := setThreadedError (fun _ => "") "p" 5 ⟨[], none⟩ } ∧
    (-1 : Int) ≠ 5 ∧ (-1 : Int) < 0 :=
  ⟨rfl, by decide, by decide⟩

/-- Claim C3: the claim states that on a non-interruption write error the
call returns exactly the bytes written before the failing attempt.  The
code violates this by one: with the first `pwrite` transferring 5 of 10
requested bytes and the second failing with `errno = 5`, `write` returns
`wrote + prior = -1 + 5 = 4`, not 5. -/
theorem write_error_return_bug :
    writeLoop (fun _ => "") "p" [10, 11, 12, 13, 14, 15, 16, 17, 18, 19]
        [PResult.ok 5, PResult.err 5] 0 10 0 [] ⟨[], none⟩ =
      some { ret := 4, data := [10, 11, 12, 13, 14]
             ts := setThreadedError (fun _ => "") "p" 5 ⟨[], none⟩ } ∧
    (4 : Int) ≠ 5 :=
  ⟨rfl, by decide⟩

/-- Claim C4: the claim states that a successful `open(mode)` sets the
handle's mode field to the requested mode.  The code never assigns
`m_mode` in `open`: after a successful `open(OverWrite)` the mode field
is still `None`. -/
theorem open_mode_unset_bug :
    (FileHandle.open (fun _ => "") ⟨3, 0⟩ ⟨4, 0⟩ (FileHandle.init "p")
        Mode.overWrite ⟨[], none⟩).ret = true ∧
    (FileHandle.open (fun _ => "") ⟨3, 0⟩ ⟨4, 0⟩ (FileHandle.init "p")
        Mode.overWrite ⟨[], none⟩).handle.m_mode = Mode.none ∧
    Mode.none ≠ Mode.overWrite :=
  ⟨rfl, rfl, by decide⟩

/-- Claim C5 counterexample: at the concrete input `a = ("p", fd 3,
OverWrite)`, `b = ("p", fd -1, None)`, after `b = move(a)` the claim
requires `b.m_mode = OverWrite` (a's former mode) and `a.m_mode = None`;
`operator=` transfers neither, so both conjuncts fail. -/
theorem moveAssign_mode_not_transferred :
    ¬ ((FileHandle.moveAssign ⟨"p", -1, Mode.none⟩ ⟨"p", 3, Mode.overWrite⟩).1.m_mode
          = Mode.overWrite ∧
       (FileHandle.moveAssign ⟨"p", -1, Mode.none⟩ ⟨"p", 3, Mode.overWrite⟩).2.m_mode
          = Mode.none) := by
  decide

/-- Claim C5 (amended): move construction transfers descriptor and mode
and resets the source to (invalid descriptor, mode None); move assignment
between handles with equal paths transfers only the descriptor and resets
only the source's descriptor, leaving both mode fields unchanged. -/
theorem move_transfer_semantics (a b : FileHandle) (_hpath : b.path = a.path) :
    FileHandle.moveConstruct a = (a, { a with m_fd := -1, m_mode := Mode.none }) ∧
    FileHandle.moveAssign b a = ({ b with m_fd := a.m_fd }, { a with m_fd := -1 }) :=
  ⟨rfl, rfl⟩

/-- Claim C5 witness: the amended move semantics evaluated at the concrete
handles used in the counterexample. -/
theorem move_transfer_semantics_witness :
    FileHandle.moveConstruct ⟨"p", 3, Mode.overWrite⟩ =
      (⟨"p", 3, Mode.overWrite⟩, ⟨"p", -1, Mode.none⟩) ∧
    FileHandle.moveAssign ⟨"p", -1, Mode.none⟩ ⟨"p", 3, Mode.overWrite⟩ =
      (⟨"p", 3, Mode.none⟩, ⟨"p", -1, Mode.overWrite⟩) :=
  move_transfer_semantics ⟨"p", 3, Mode.overWrite⟩ ⟨"p", -1, Mode.none⟩ rfl

/-- Claim C6 counterexample: on a 5-byte file with the shared cursor at 0,
`size()` moves the cursor to 5 — it mutates the shared file-position
cursor, contradicting the claim that it uses a cursor-independent length
query. -/
theorem size_moves_cursor :
    (FileHandle.size { content := [0, 0, 0, 0, 0], cursor := 0 }).2.cursor ≠
      ({ content := [0, 0, 0, 0, 0], cursor := 0 } : OSFile).cursor := by
  decide

/-- Claim C6 (amended): `size()` returns the current file length, but it
is implemented as `lseek(fd, 0, SEEK_END)`, which repositions the shared
file-position cursor to end-of-file as a side effect. -/
theorem size_via_lseek_end (file : OSFile) :
    FileHandle.size file =
      ((file.content.length : Int), { file with cursor := file.content.length }) :=
  rfl

/-- Claim C7: if exactly one underlying attempt of a read or write call is
interrupted by a signal (`errno = EINTR`) and every other attempt succeeds
(positive transfers that complete the requested `size`), the call returns
the full requested count with the correct bytes, and no error is captured
or published (the error sinks `ts` are untouched). -/
theorem single_interruption_transparent (strerror : Nat → String)
    (h : FileHandle) (f b : List Nat) (ts : ThreadState)
    (pre post : List Nat) (offset size : Nat)
    (hpos : ∀ k ∈ pre ++ post, 0 < k)
    (hsum : (pre ++ post).sum = size)
    (hsize : 0 < size)
    (hflen : offset + size ≤ f.length)
    (hblen : size ≤ b.length) :
    FileHandle.read strerror f
        (pre.map PResult.ok ++ PResult.err EINTR :: post.map PResult.ok)
        h offset size ts =
      some { ret := (size : Int), data := chunk f offset size, ts := ts } ∧
    (chunk f offset size).length = size ∧
    FileHandle.write strerror b
        (pre.map PResult.ok ++ PResult.err EINTR :: post.map PResult.ok)
        h offset size ts =
      some { ret := (size : Int), data := b.take size, ts := ts } ∧
    (b.take size).length = size := by
  subst hsum
  have hne : pre ++ post ≠ [] := by
    intro hcon
    rw [hcon] at hsize
    simp at hsize
  refine ⟨?_, ?_, ?_, ?_⟩
  · unfold FileHandle.read
    rw [readLoop_skip_eintr strerror h.path f (pre.map PResult.ok) (post.map PResult.ok)]
    rw [← List.map_append]
    rw [show (pre ++ post).map PResult.ok = (pre ++ post).map PResult.ok ++ [] from
          (List.append_nil _).symm]
    rw [readLoop_ok_complete strerror h.path f (pre ++ post) offset 0 [] ts [] hne hpos]
    simp
  · simp only [chunk, List.length_take, List.length_drop]
    omega
  · unfold FileHandle.write
    rw [writeLoop_skip_eintr strerror h.path b (pre.map PResult.ok) (post.map PResult.ok)]
    rw [← List.map_append]
    rw [show (pre ++ post).map PResult.ok = (pre ++ post).map PResult.ok ++ [] from
          (List.append_nil _).symm]
    rw [writeLoop_ok_complete strerror h.path b (pre ++ post) offset 0 [] ts [] hne hpos]
    simp [chunk]
  · simp only [List.length_take]
    omega

/-- Claim C7 witness: a 3-byte transfer whose second attempt is
interrupted (schedule: 1 byte, EINTR, 2 bytes) returns 3 with the exact
file/buffer bytes and no captured error. -/
theorem single_interruption_transparent_witness :
    FileHandle.read (fun _ => "") [7, 8, 9]
        [PResult.ok 1, PResult.err EINTR, PResult.ok 2]
        (FileHandle.init "p") 0 3 ⟨[], none⟩ =
      some { ret := 3, data := [7, 8, 9], ts := ⟨[], none⟩ } ∧
    (chunk [7, 8, 9] 0 3).length = 3 ∧
    FileHandle.write (fun _ => "") [7, 8, 9]
        [PResult.ok 1, PResult.err EINTR, PResult.ok 2]
        (FileHandle.init "p") 0 3 ⟨[], none⟩ =
      some { ret := 3, data := [7, 8, 9], ts := ⟨[], none⟩ } ∧
    (([7, 8, 9] : List Nat).take 3).length = 3 :=
  single_interruption_transparent (fun _ => "") (FileHandle.init "p") [7, 8, 9]
    [7, 8, 9] ⟨[], none⟩ [1] [2] 0 3 (by decide) (by decide) (by decide)
    (by decide) (by decide)

/-- Claim C8: the claim states that every failing non-interruption OS
call inside open, read or write produces exactly one published/stored
Error.  The code violates this in `open`, which checks only the second
of its two `::open` calls: at the failing input (closed handle on path
`"p"`, `open(OverWrite)` whose mode-specific `::open` fails with
`errno = 13` (EACCES) while the follow-up `::open(path, 0)` succeeds
with descriptor 4), `open` returns `true` and neither publishes nor
stores any Error — the failing call's error is silently dropped.  And
when both `::open` calls fail (`errno = 13` each), the two failing OS
calls produce only one Error between them. -/
theorem open_failing_first_call_drops_error :
    (FileHandle.open (fun n => toString n) ⟨-1, 13⟩ ⟨4, 0⟩ (FileHandle.init "p")
        Mode.overWrite ⟨[], none⟩).ret = true ∧
    (FileHandle.open (fun n => toString n) ⟨-1, 13⟩ ⟨4, 0⟩ (FileHandle.init "p")
        Mode.overWrite ⟨[], none⟩).ts.published = [] ∧
    (FileHandle.open (fun n => toString n) ⟨-1, 13⟩ ⟨4, 0⟩ (FileHandle.init "p")
        Mode.overWrite ⟨[], none⟩).ts.slot = none ∧
    (FileHandle.open (fun n => toString n) ⟨-1, 13⟩ ⟨4, 0⟩ (FileHandle.init "p")
        Mode.overWrite ⟨[], none⟩).calls.length = 2 ∧
    (FileHandle.open (fun n => toString n) ⟨-1, 13⟩ ⟨-1, 13⟩ (FileHandle.init "p")
        Mode.overWrite ⟨[], none⟩).ts.published.length = 1 :=
  ⟨rfl, rfl, rfl, rfl, rfl⟩

/-- Claim C9: `close()` on an already-closed handle is a no-op that
releases nothing; closing twice never double-releases, and the invalid
sentinel `-1` is never passed to the OS release primitive. -/
theorem close_idempotent_noop (h : FileHandle) (hclosed : h.isOpened = false) :
    FileHandle.close h = (h, []) ∧
    (∀ g : FileHandle,
      FileHandle.close (FileHandle.close g).1 = ((FileHandle.close g).1, [])) ∧
    (∀ g : FileHandle, (-1 : Int) ∉ (FileHandle.close g).2) := by
  refine ⟨?_, ?_, ?_⟩
  · have hfd : h.m_fd = -1 := by
      simpa [FileHandle.isOpened] using hclosed
    simp [FileHandle.close, hfd]
  · intro g
    by_cases hg : g.m_fd = -1 <;> simp [FileHandle.close, hg]
  · intro g
    by_cases hg : g.m_fd = -1
    · simp [FileHandle.close, hg]
    · simp [FileHandle.close, hg]
      omega

/-- Claim C9 witness: closing a freshly constructed (never opened) handle
changes nothing and issues no `::close`. -/
theorem close_idempotent_noop_witness :
    FileHandle.close (FileHandle.init "p") = (FileHandle.init "p", []) ∧
    (∀ g : FileHandle,
      FileHandle.close (FileHandle.close g).1 = ((FileHandle.close g).1, [])) ∧
    (∀ g : FileHandle, (-1 : Int) ∉ (FileHandle.close g).2) :=
  close_idempotent_noop (FileHandle.init "p") rfl

/-- Claim C10: calling `open(mode)` on an already-open handle returns
`true` (the `WCTRemedialAssert` remedial action), leaves the descriptor
and mode unchanged, and issues no `::open` system call. -/
theorem open_when_already_opened (strerror : Nat → String) (r1 r2 : OpenRes)
    (h : FileHandle) (mode : Mode) (ts : ThreadState)
    (hopen : h.isOpened = true) :
    FileHandle.open strerror r1 r2 h mode ts =
      { ret := true, handle := h, calls := [], ts := ts } := by
  unfold FileHandle.open
  rw [hopen]
  simp

/-- Claim C10 witness: re-opening a handle that holds descriptor 3
reports success, keeps descriptor 3, and issues no system call. -/
theorem open_when_already_opened_witness :
    FileHandle.open (fun _ => "") ⟨5, 0⟩ ⟨6, 0⟩ ⟨"p", 3, Mode.none⟩
        Mode.overWrite ⟨[], none⟩ =
      { ret := true, handle := ⟨"p", 3, Mode.none⟩, calls := [], ts := ⟨[], none⟩ } :=
  open_when_already_opened (fun _ => "") ⟨5, 0⟩ ⟨6, 0⟩ ⟨"p", 3, Mode.none⟩
    Mode.overWrite ⟨[], none⟩ rfl

end WCDB
